import Mathlib

/-!
Verification of the peer-negotiation and signaling-orchestration engine of the
P2P private chat client.

The development shallowly embeds the relevant parts of the TypeScript source:

* the initiator-election rule and the fallback-timer logic of the chat page
  (`src/unnamed/part_002`, `initializeChat`);
* the signaling-message handler of `WebRTCService`
  (`src/client/app/utils/webrtc.ts`, `handleSignalingMessage`,
  `processPendingIceCandidates`, `createPeerConnectionAsInitiator`);
* the reconnection controller (`handleDisconnection`, the data-channel
  `onopen` handler);
* the subscription dispatch of `SignalingService.connect`
  (`src/client/app/utils/signaling.ts`) and its room-capacity check;
* `WebRTCService.sendMessage`.

JavaScript numbers appearing in the election (`Math.random()` values, which
are finite IEEE doubles in `[0,1)`, and `Date.now()` millisecond integers)
are embedded as `ℚ` and `ℤ`: comparison of finite doubles coincides with the
rational order, and only comparisons of these values occur in the code.
Stateful code is embedded as explicit state-passing functions; observable
side effects (publishing envelopes, invoking registered callbacks, clearing
storage) are recorded either as counters in the state or as explicit effect
lists.  Promise-based code is embedded in its happy path: the WebRTC
primitive operations (`setRemoteDescription`, `createAnswer`, ...) are
assumed not to throw, matching the spec's nominal behaviour.
-/

set_option autoImplicit false

namespace P2PChat

/-! ## Initiator election (chat page, `initializeChat`)

Each side generates `randomValue = Math.random()`, publishes
`{ randomValue, timestamp: Date.now() }` as an `initiator-selection`
envelope, and on receiving the peer's token runs

```
const theirValue = message.content.randomValue;
const theirTimestamp = message.content.timestamp;
const ourTimestamp = Date.now();
if (randomValue > theirValue ||
    (randomValue === theirValue && ourTimestamp < theirTimestamp)) {
  actualInitiator = true;  webRTCService.createPeerConnectionAsInitiator();
} else {
  actualInitiator = false; webRTCService.createPeerConnectionAsReceiver();
}
```

Note `ourTimestamp` is a fresh `Date.now()` evaluated when the peer's token
is received — NOT the `timestamp` this side published in its own token.
The embedding keeps them separate: `becomesInitiator` takes the local
`randomValue` closure variable and the receipt-time `ourTimestamp` as
arguments, and the peer's published token as the message content. -/

/-- An election token: `{ randomValue, timestamp }` as published in an
`initiator-selection` envelope.  `randomValue` is a finite double in `[0,1)`,
embedded as `ℚ`; `timestamp` is the `Date.now()` millisecond count at
publish time. -/
structure ElectionToken where
  randomValue : ℚ
  timestamp : ℤ
deriving DecidableEq

/-- The election comparison of the chat page, as the code computes it:
`randomValue` is the local side's published random value (a closure
variable), `ourTimestamp` is the fresh `Date.now()` evaluated at receipt of
the peer's token, and `theirToken` is the peer's published token from
`message.content`.  The local side becomes the initiator iff its random
value is strictly greater, or the random values are equal and the local
receipt time is strictly smaller than the peer's published timestamp. -/
def becomesInitiator (randomValue : ℚ) (ourTimestamp : ℤ)
    (theirToken : ElectionToken) : Bool :=
  decide (theirToken.randomValue < randomValue)
    || (decide (randomValue = theirToken.randomValue)
        && decide (ourTimestamp < theirToken.timestamp))

/-- Modelled from the spec: the election rule as the spec states it (§4.3)
— `local becomes initiator if local.randomValue > peer.randomValue, or if
the values are equal and local.timestamp < peer.timestamp` — with the
tie-break comparing the two tokens' PUBLISHED timestamps.  Declared only to
contrast, at a concrete input, what the claimed rule yields with what the
code's `becomesInitiator` yields; the code is embedded by
`becomesInitiator`, not by this definition. -/
def specBecomesInitiator (ours theirs : ElectionToken) : Bool :=
  decide (theirs.randomValue < ours.randomValue)
    || (decide (ours.randomValue = theirs.randomValue)
        && decide (ours.timestamp < theirs.timestamp))

/-! ## The chat page's fallback timer

`initializeChat` arms a 3000 ms fallback:

```
const timeout = setTimeout(() => {
  if (!actualInitiator && connectionStatus !== 'open') {
    actualInitiator = true;
    webRTCService.createPeerConnectionAsInitiator();
  }
}, 3000);
```

The timer is cleared only in the `useEffect` cleanup (component unmount);
the `initiator-selection` handler does not cancel it.  `connectionStatus`
inside the closure is the React state value captured when `initializeChat`
was created (the initial render), i.e. `'connecting'`; it never observes
later state updates.  We model that captured value as a fixed field. -/

/-- Connection status as seen by the fallback-timer closure. -/
inductive ConnStatus
  | connecting
  | opened
  | closedStatus
deriving DecidableEq

/-- The chat page state relevant to election: the `actualInitiator` flag,
the `connectionStatus` value captured by the fallback-timer closure, and
counters of how often each peer-connection constructor has been invoked. -/
structure ChatPageState where
  actualInitiator : Bool
  capturedStatus : ConnStatus
  initiatorCalls : Nat
  receiverCalls : Nat
deriving DecidableEq

/-- Chat page state at the moment `initializeChat` has armed the fallback
timer: not initiator, captured status `'connecting'`. -/
def initialChatState : ChatPageState :=
  { actualInitiator := false
    capturedStatus := ConnStatus.connecting
    initiatorCalls := 0
    receiverCalls := 0 }

/-- Events processed by the chat page's election logic.  A peer token
arrival carries the peer's published token and `receiptTime`, the value the
fresh `Date.now()` inside the handler evaluates to at that moment. -/
inductive ChatEvent
  | peerToken (t : ElectionToken) (receiptTime : ℤ)
  | fallbackTimerFires
deriving DecidableEq

/-- One step of the chat page's election logic, given the local side's
`randomValue` closure variable.  On a peer token the election rule runs
with the receipt-time `Date.now()` (the fallback timer is NOT cancelled);
on a timer fire the guarded fallback runs. -/
def chatStep (ourRandomValue : ℚ) (s : ChatPageState) :
    ChatEvent → ChatPageState
  | ChatEvent.peerToken t receiptTime =>
    if becomesInitiator ourRandomValue receiptTime t then
      { s with actualInitiator := true, initiatorCalls := s.initiatorCalls + 1 }
    else
      { s with actualInitiator := false, receiverCalls := s.receiverCalls + 1 }
  | ChatEvent.fallbackTimerFires =>
    if s.actualInitiator = false ∧ s.capturedStatus ≠ ConnStatus.opened then
      { s with actualInitiator := true, initiatorCalls := s.initiatorCalls + 1 }
    else s

/-- Run the chat page's election logic over a sequence of events. -/
def chatRun (ourRandomValue : ℚ) (s : ChatPageState)
    (evs : List ChatEvent) : ChatPageState :=
  evs.foldl (chatStep ourRandomValue) s

/-! ## Negotiation handler (`WebRTCService.handleSignalingMessage`)

The offer/answer/ice-candidate cases of the switch in
`handleSignalingMessage`, together with `processPendingIceCandidates` and
`createPeerConnectionAsInitiator`, embedded in their happy path (the WebRTC
primitive calls succeed).  The state tracks:

* `pcGen` — a generation counter for the `RTCPeerConnection` instance; a
  full reset (`close()` + `createPeerConnectionAsReceiver()`) increments it;
* `signalingState` — the subset of `RTCSignalingState` the code consults
  (`'stable'`, `'have-local-offer'`) plus `'have-remote-offer'`, with the
  standard WebRTC transitions for `setLocalDescription` /
  `setRemoteDescription`;
* `remoteDescriptionSet` and `pendingIceCandidates` — the buffering state;
* `applied` — the candidates handed to `addIceCandidate`, in call order
  (`processPendingIceCandidates` initiates `addIceCandidate` on the queued
  candidates in buffer order);
* `offersSent` / `answersSent` — envelopes published via
  `signalingService.sendSignalMessage`;
* `signalingConnected` — the `signalingService.isConnected()` flag consulted
  before sending the answer.

ICE candidates are identified by `Nat` payload ids. -/

/-- The values of `RTCPeerConnection.signalingState` relevant to the
handler. -/
inductive SignalingState
  | stable
  | haveLocalOffer
  | haveRemoteOffer
deriving DecidableEq

/-- Negotiation-relevant state of `WebRTCService`. -/
structure NegoState where
  pcGen : Nat
  signalingState : SignalingState
  remoteDescriptionSet : Bool
  pendingIceCandidates : List Nat
  applied : List Nat
  offersSent : Nat
  answersSent : Nat
  signalingConnected : Bool
deriving DecidableEq

/-- State after `WebRTCService.initialize` has created the receiver peer
connection: fresh connection in `'stable'`, no remote description, empty
buffer. -/
def negoInit : NegoState :=
  { pcGen := 0
    signalingState := SignalingState.stable
    remoteDescriptionSet := false
    pendingIceCandidates := []
    applied := []
    offersSent := 0
    answersSent := 0
    signalingConnected := true }

/-- `processPendingIceCandidates`: returns unchanged when there is no remote
description or no queued candidate; otherwise initiates `addIceCandidate`
for every queued candidate, in buffer order, then clears the queue. -/
def processPendingIceCandidates (s : NegoState) : NegoState :=
  if s.remoteDescriptionSet = false ∨ s.pendingIceCandidates = [] then s
  else
    { s with
      applied := s.applied ++ s.pendingIceCandidates
      pendingIceCandidates := [] }

/-- `createPeerConnectionAsInitiator` (happy path): closes the current
connection, creates a fresh one, resets `remoteDescriptionSet` and the
candidate buffer, creates the data channel, then creates an offer, applies
it locally (`'have-local-offer'`) and publishes it. -/
def createPeerConnectionAsInitiator (s : NegoState) : NegoState :=
  { s with
    pcGen := s.pcGen + 1
    remoteDescriptionSet := false
    pendingIceCandidates := []
    signalingState := SignalingState.haveLocalOffer
    offersSent := s.offersSent + 1 }

/-- The `'offer'` case of `handleSignalingMessage` (happy path).  If the
connection is not in `'stable'`, the current instance is closed, a fresh
receiver connection is created and the buffering state is discarded; then
the remote offer is applied, pending candidates are flushed, an answer is
created and applied locally, and the answer is published if signaling is
connected. -/
def handleOffer (s : NegoState) : NegoState :=
  let s1 :=
    if s.signalingState ≠ SignalingState.stable then
      { s with
        pcGen := s.pcGen + 1
        signalingState := SignalingState.stable
        remoteDescriptionSet := false
        pendingIceCandidates := [] }
    else s
  let s2 := { s1 with
    signalingState := SignalingState.haveRemoteOffer
    remoteDescriptionSet := true }
  let s3 := processPendingIceCandidates s2
  let s4 := { s3 with signalingState := SignalingState.stable }
  if s4.signalingConnected then { s4 with answersSent := s4.answersSent + 1 }
  else s4

/-- The `'answer'` case of `handleSignalingMessage`: when the connection is
not in `'have-local-offer'` the message is ignored (logged, early return);
otherwise the remote answer is applied and pending candidates flushed. -/
def handleAnswer (s : NegoState) : NegoState :=
  if s.signalingState ≠ SignalingState.haveLocalOffer then s
  else
    let s1 := { s with
      signalingState := SignalingState.stable
      remoteDescriptionSet := true }
    processPendingIceCandidates s1

/-- The `'ice-candidate'` case of `handleSignalingMessage` (happy path):
buffered while no remote description is set, applied immediately
otherwise. -/
def handleIceCandidate (s : NegoState) (c : Nat) : NegoState :=
  if s.remoteDescriptionSet = false then
    { s with pendingIceCandidates := s.pendingIceCandidates ++ [c] }
  else
    { s with applied := s.applied ++ [c] }

/-- A mid-negotiation state: this side has become initiator and published an
offer (`'have-local-offer'`), two candidates are buffered, one candidate was
already applied in an earlier exchange, signaling is connected. -/
def exMidNego : NegoState :=
  { pcGen := 3
    signalingState := SignalingState.haveLocalOffer
    remoteDescriptionSet := false
    pendingIceCandidates := [4, 7]
    applied := [1]
    offersSent := 2
    answersSent := 0
    signalingConnected := true }

/-! ## Reconnection controller (`WebRTCService.handleDisconnection`,
data-channel `onopen`)

```
private handleDisconnection(): void {
  if (!this.isSessionActive) return;
  if (this.reconnectAttempts < this.maxReconnectAttempts) {
    this.reconnectAttempts++;
    ... close peerConnection ...
    setTimeout(() => {
      if (this.isInitiator) this.createPeerConnectionAsInitiator();
      else this.createPeerConnectionAsReceiver();
    }, this.reconnectionDelay);
  } else {
    this.isReconnecting = false;
    if (this.callbacks) this.callbacks.onChannelStatusChange('closed');
  }
}
```

and in `setupDataChannelHandlers`:

```
this.dataChannel.onopen = () => {
  this.reconnectAttempts = 0;
  this.isReconnecting = false;
  if (this.callbacks) this.callbacks.onChannelStatusChange('open');
};
```

Both are total — neither branch throws.  A scheduled attempt is recorded as
the role (taken from `this.isInitiator`, without re-election) the delayed
callback will use; a reported channel status is recorded as an `Option`. -/

/-- The elected role a scheduled reconnection attempt re-enters negotiation
with. -/
inductive Role
  | initiator
  | receiver
deriving DecidableEq

/-- A channel status reported through `onChannelStatusChange`. -/
inductive ChannelStatus
  | opened
  | closed
  | connecting
deriving DecidableEq

/-- Reconnection-relevant state of `WebRTCService`. -/
structure ReconnState where
  isSessionActive : Bool
  reconnectAttempts : Nat
  isInitiator : Bool
  isReconnecting : Bool
deriving DecidableEq

/-- `this.maxReconnectAttempts = 5`. -/
def maxReconnectAttempts : Nat := 5

/-- `handleDisconnection`: returns the new state, the role of the scheduled
attempt (if one was scheduled), and the reported channel status (if any). -/
def handleDisconnection (s : ReconnState) :
    ReconnState × Option Role × Option ChannelStatus :=
  if s.isSessionActive = false then (s, none, none)
  else if s.reconnectAttempts < maxReconnectAttempts then
    ({ s with reconnectAttempts := s.reconnectAttempts + 1 },
      some (if s.isInitiator then Role.initiator else Role.receiver),
      none)
  else
    ({ s with isReconnecting := false }, none, some ChannelStatus.closed)

/-- The data-channel `onopen` handler: resets the attempt counter and
reports `'open'`. -/
def onDataChannelOpen (s : ReconnState) : ReconnState × ChannelStatus :=
  ({ s with reconnectAttempts := 0, isReconnecting := false },
    ChannelStatus.opened)

/-- A state five failed attempts in: session active, counter exhausted. -/
def exExhausted : ReconnState :=
  { isSessionActive := true
    reconnectAttempts := 5
    isInitiator := true
    isReconnecting := true }

/-- A state mid-reconnection: session active, two attempts used, previously
elected initiator. -/
def exRetrying : ReconnState :=
  { isSessionActive := true
    reconnectAttempts := 2
    isInitiator := true
    isReconnecting := true }

/-! ## Relay subscription dispatch (`SignalingService.connect`) and the
end-session handler

The subscription callback installed by `connect` decides whether a received
envelope reaches the registered `messageCallback`:

```
if (signalMessage.type === 'end-session') {
  if (signalMessage.senderId !== this.userId) this.messageCallback(signalMessage);
  return;
}
if (signalMessage.type === 'room-full') {
  this.messageCallback(signalMessage);
  return;
}
if (signalMessage.senderId !== this.userId) this.messageCallback(signalMessage);
```

(The whole body runs only when a callback is registered.)  Note the
`'room-full'` branch has no sender check. -/

/-- Envelope types of the wire protocol.  (`'keep-alive'` is sent by
`sendKeepAlive` even though the `SignalMessage` type union omits it.) -/
inductive MsgType
  | offer
  | answer
  | iceCandidate
  | initiatorSelection
  | endSession
  | roomFull
  | keepAlive
deriving DecidableEq

/-- A received signal envelope, reduced to the fields the dispatch
consults. -/
structure Envelope where
  type : MsgType
  senderId : String
deriving DecidableEq

/-- Whether the subscription callback forwards the envelope to the
registered `messageCallback`, given the local participant's `userId`. -/
def deliversToCallback (userId : String) (m : Envelope) : Bool :=
  match m.type with
  | MsgType.endSession => decide (m.senderId ≠ userId)
  | MsgType.roomFull => true
  | _ => decide (m.senderId ≠ userId)

/-! The `'end-session'` branch of `WebRTCService.handleSignalingMessage`:

```
if (message.type === 'end-session') {
  this.isSessionActive = false;
  const currentRoomId = this.roomId;
  if (currentRoomId) {
    clearMessages(currentRoomId);
    clearRoomParticipants(currentRoomId);
  }
  clearSession();
  if (this.callbacks) this.callbacks.onSessionEnded(true);
  this.cleanup();
  return;
}
```

It runs unconditionally — there is no `isSessionActive` guard. -/

/-- Session-lifecycle state of `WebRTCService` consulted by the end-session
branch. -/
structure SessionState where
  isSessionActive : Bool
  roomId : Option String
deriving DecidableEq

/-- Observable side effects of the end-session branch, in emission order. -/
inductive Effect
  | clearMessages (roomId : String)
  | clearRoomParticipants (roomId : String)
  | clearSession
  | onSessionEnded (byPeer : Bool)
  | cleanupConnections
deriving DecidableEq

/-- The `'end-session'` branch of `handleSignalingMessage`: deactivates the
session, clears room-scoped storage, clears the session record, reports
`onSessionEnded(true)` and cleans up — with no guard on
`isSessionActive`. -/
def handleEndSession (s : SessionState) : SessionState × List Effect :=
  ({ s with isSessionActive := false },
    (match s.roomId with
      | some r => [Effect.clearMessages r, Effect.clearRoomParticipants r]
      | none => [])
    ++ [Effect.clearSession, Effect.onSessionEnded true,
        Effect.cleanupConnections])

/-! ## Connect flow and room capacity (`SignalingService.connect` +
`WebRTCService.initialize` + chat page)

In `onConnect`, after subscribing:

```
const participantCount = updateRoomParticipants(roomId, userId, true);
if (participantCount > 2) {
  this.sendSignalMessage('room-full', {...});
  resolve();            // still resolves!
  return;               // skips keep-alive setup
}
this.sendKeepAlive();
... keep-alive interval ...
resolve();
```

`WebRTCService.initialize` awaits `connect` and — since `connect` resolves
in both branches — unconditionally continues: it creates the receiver peer
connection and registers the signaling handler; the chat page then publishes
its `initiator-selection` token and arms the 3000 ms fallback timer. -/

/-- Outcome of `SignalingService.connect`'s `onConnect` body, keyed by the
participant count `updateRoomParticipants` returned. -/
structure ConnectOutcome where
  subscribed : Bool
  resolved : Bool
  roomFullSent : Bool
  keepAliveStarted : Bool
deriving DecidableEq

/-- The capacity branch of the connect flow. -/
def connectFlow (participantCount : Nat) : ConnectOutcome :=
  if participantCount > 2 then
    { subscribed := true
      resolved := true
      roomFullSent := true
      keepAliveStarted := false }
  else
    { subscribed := true
      resolved := true
      roomFullSent := false
      keepAliveStarted := true }

/-- Steps `WebRTCService.initialize` and the chat page perform after
`signalingService.connect` settles. -/
inductive InitStep
  | createPeerConnectionAsReceiver
  | registerSignalHandler
  | sendInitiatorSelection
  | armFallbackTimer
deriving DecidableEq

/-- The continuation after `connect`: when the promise resolved, `initialize`
creates the receiver connection and registers the handler, and the chat page
publishes its election token and arms the fallback timer; when it rejected,
`initialize` rejects and the chat page sets status `'closed'`. -/
def initializeAfterConnect (c : ConnectOutcome) : List InitStep :=
  if c.resolved then
    [InitStep.createPeerConnectionAsReceiver,
      InitStep.registerSignalHandler,
      InitStep.sendInitiatorSelection,
      InitStep.armFallbackTimer]
  else []

/-! ## `WebRTCService.sendMessage`

```
sendMessage(message: string): void {
  if (!this.dataChannel || this.dataChannel.readyState !== 'open') {
    console.warn(...); return;
  }
  try {
    ... this.dataChannel.send(JSON.stringify(dataToSend));
    this.storedMessages.push(messageEvent);
    this.persistMessages();
    if (this.callbacks.onMessageReceived) this.callbacks.onMessageReceived(messageEvent);
  } catch ...
}
```
-/

/-- `RTCDataChannel.readyState`. -/
inductive ChannelReadyState
  | connecting
  | opened
  | closing
  | closedState
deriving DecidableEq

/-- A stored message event, reduced to the fields `sendMessage` fills. -/
structure StoredMessage where
  data : String
  senderId : String
  isSelf : Bool
deriving DecidableEq

/-- State of `WebRTCService` consulted by `sendMessage`: the data channel
(`none` when absent, otherwise its ready state), the in-memory message list
and the nickname. -/
structure ChatServiceState where
  dataChannel : Option ChannelReadyState
  storedMessages : List StoredMessage
  nickname : Option String
deriving DecidableEq

/-- Observable side effects of `sendMessage`, in emission order. -/
inductive SendEffect
  | channelSend (payload : String)
  | persistMessages
  | onMessageReceived
deriving DecidableEq

/-- `sendMessage` (happy path for the open-channel branch): a no-op unless
the data channel exists and its `readyState` is `'open'`; otherwise sends on
the channel, appends the message to `storedMessages` marked `isSelf`,
persists, and invokes `onMessageReceived`. -/
def sendMessage (s : ChatServiceState) (message : String) :
    ChatServiceState × List SendEffect :=
  match s.dataChannel with
  | none => (s, [])
  | some rs =>
    if rs ≠ ChannelReadyState.opened then (s, [])
    else
      ({ s with
          storedMessages := s.storedMessages
            ++ [{ data := message
                  senderId := s.nickname.getD "Unknown"
                  isSelf := true }] },
        [SendEffect.channelSend message, SendEffect.persistMessages,
          SendEffect.onMessageReceived])

/-- A service state with no data channel. -/
def exNoChannel : ChatServiceState :=
  { dataChannel := none
    storedMessages := []
    nickname := some "alice" }

end P2PChat

namespace P2PChat

/-- C1: the code does not implement the claim's election rule in the
equal-randomValue sub-case.  The claim's rule tie-breaks on the tokens'
published timestamps (`local.timestamp < peer.timestamp`), but the code
compares a fresh `Date.now()` evaluated at receipt of the peer's token
against the peer's published timestamp.  Failing input: both sides publish
`randomValue = 1/2`, side A the token `(1/2, 100)` and side B the token
`(1/2, 101)`, and each side's receipt-time `Date.now()` is `150` (receipt
follows both publishes).  Under the claim's rule (`specBecomesInitiator`,
first two conjuncts) side A is the initiator and side B the receiver —
exactly one.  The code (`becomesInitiator`, last two conjuncts) computes
`false` on BOTH sides — side A evaluates `150 < 101`, side B `150 < 100` —
so neither side becomes initiator, contradicting the claim. -/
theorem election_tie_break_uses_receipt_time :
    specBecomesInitiator (ElectionToken.mk (1/2) 100)
        (ElectionToken.mk (1/2) 101) = true ∧
    specBecomesInitiator (ElectionToken.mk (1/2) 101)
        (ElectionToken.mk (1/2) 100) = false ∧
    becomesInitiator (1/2) 150 (ElectionToken.mk (1/2) 101) = false ∧
    becomesInitiator (1/2) 150 (ElectionToken.mk (1/2) 100) = false := by
  refine ⟨?_, ?_, ?_, ?_⟩ <;> simp [becomesInitiator, specBecomesInitiator]

/-- C2: the election handler of `initializeChat` does not cancel the 3000 ms
fallback timer, and the receiver branch leaves `actualInitiator = false`, so
a later timer fire turns an already-elected receiver into an initiator.
At the failing input — local `randomValue = 3/10`, peer token `(7/10, 90)`
received at `Date.now() = 150` before the timer fires, captured status
`'connecting'` — the election makes the local side the receiver, yet after
the timer fires the local side has called
`createPeerConnectionAsInitiator` and holds `actualInitiator = true`, while
the peer side's election (local `randomValue = 7/10`, receiving our token
`(3/10, 100)` at `Date.now() = 155`) made the peer an initiator too: both
sides end up self-elected as initiator, contradicting the claim.  (The
random values are distinct, so the comparison short-circuits before the
tie-break and receipt times are irrelevant here.) -/
theorem fallback_timer_overrides_receiver_election :
    becomesInitiator (3/10) 150 (ElectionToken.mk (7/10) 90) = false ∧
    becomesInitiator (7/10) 155 (ElectionToken.mk (3/10) 100) = true ∧
    chatRun (3/10) initialChatState
        [ChatEvent.peerToken (ElectionToken.mk (7/10) 90) 150,
          ChatEvent.fallbackTimerFires]
      = { actualInitiator := true
          capturedStatus := ConnStatus.connecting
          initiatorCalls := 1
          receiverCalls := 1 } := by
  refine ⟨?_, ?_, ?_⟩
  · simp [becomesInitiator]
    norm_num
  · simp [becomesInitiator]
    norm_num
  · have hrecv : becomesInitiator (3/10) 150 (ElectionToken.mk (7/10) 90)
        = false := by
      simp [becomesInitiator]
      norm_num
    simp [chatRun, chatStep, initialChatState, hrecv]

/-- C3 counterexample: a candidate received while the remote description is
unset is buffered, but an offer arriving mid-negotiation (connection not
`'stable'`) discards the buffer wholesale before setting the remote
description.  Trace: the local side becomes initiator and publishes an
offer; the peer's candidate `1` arrives and is buffered; the peer's offer
arrives — after the handler runs, the remote description is set, the buffer
is empty, and `addIceCandidate` was never initiated for candidate `1`: it is
applied zero times, not exactly once. -/
theorem buffered_candidate_lost_on_reset :
    (createPeerConnectionAsInitiator negoInit).remoteDescriptionSet = false ∧
    (handleIceCandidate (createPeerConnectionAsInitiator negoInit)
        1).pendingIceCandidates = [1] ∧
    (handleOffer (handleIceCandidate (createPeerConnectionAsInitiator negoInit)
        1)).remoteDescriptionSet = true ∧
    (handleOffer (handleIceCandidate (createPeerConnectionAsInitiator negoInit)
        1)).applied = [] ∧
    (handleOffer (handleIceCandidate (createPeerConnectionAsInitiator negoInit)
        1)).pendingIceCandidates = [] := by
  decide

/-- C3 amended: a candidate received while the remote description is unset
is appended to the buffer; when the remote description becomes set — via the
offer path from `'stable'` or via the answer path from `'have-local-offer'`
— every candidate then in the buffer is applied exactly once, in arrival
order, and the buffer is cleared; but an offer arriving while the connection
is not `'stable'` discards the buffer wholesale, so candidates buffered
before such a reset are never applied. -/
theorem candidate_buffering_and_flush (s : NegoState) (c : Nat) :
    (s.remoteDescriptionSet = false →
      (handleIceCandidate s c).pendingIceCandidates
          = s.pendingIceCandidates ++ [c] ∧
      (handleIceCandidate s c).applied = s.applied) ∧
    (s.signalingState = SignalingState.stable →
      (handleOffer s).applied = s.applied ++ s.pendingIceCandidates ∧
      (handleOffer s).pendingIceCandidates = [] ∧
      (handleOffer s).remoteDescriptionSet = true) ∧
    (s.signalingState = SignalingState.haveLocalOffer →
      (handleAnswer s).applied = s.applied ++ s.pendingIceCandidates ∧
      (handleAnswer s).pendingIceCandidates = [] ∧
      (handleAnswer s).remoteDescriptionSet = true) ∧
    (s.signalingState ≠ SignalingState.stable →
      (handleOffer s).applied = s.applied ∧
      (handleOffer s).pendingIceCandidates = []) := by
  refine ⟨fun h => ?_, fun h => ?_, fun h => ?_, fun h => ?_⟩
  · simp [handleIceCandidate, h]
  · by_cases hp : s.pendingIceCandidates = [] <;>
      simp [handleOffer, processPendingIceCandidates, h, hp] <;>
      split <;> simp
  · by_cases hp : s.pendingIceCandidates = [] <;>
      simp [handleAnswer, processPendingIceCandidates, h, hp]
  · simp [handleOffer, processPendingIceCandidates, h]
    split <;> simp

/-- Witness for `candidate_buffering_and_flush`: from the post-`initialize`
receiver state, candidate `5` is buffered, and the subsequent offer from
`'stable'` applies exactly the buffered candidates in order. -/
theorem candidate_buffering_and_flush_witness :
    (negoInit.remoteDescriptionSet = false ∧
      (handleIceCandidate negoInit 5).pendingIceCandidates
          = negoInit.pendingIceCandidates ++ [5]) ∧
    ((handleIceCandidate negoInit 5).signalingState = SignalingState.stable ∧
      (handleOffer (handleIceCandidate negoInit 5)).applied
          = (handleIceCandidate negoInit 5).applied
              ++ (handleIceCandidate negoInit 5).pendingIceCandidates) :=
  ⟨⟨rfl, ((candidate_buffering_and_flush negoInit 5).1 rfl).1⟩,
    ⟨by decide,
      ((candidate_buffering_and_flush (handleIceCandidate negoInit 5) 0).2.1
        (by decide)).1⟩⟩

/-- C8: an offer received while the peer connection is not in `'stable'`
(mid-negotiation) triggers a full reset — the transport-channel instance is
discarded and a fresh one created, the remote-description flag cleared and
the candidate buffer discarded wholesale — and the incoming offer is then
processed against the new instance: remote description applied, answer
created and published. -/
theorem offer_midnegotiation_full_reset (s : NegoState)
    (h1 : s.signalingState ≠ SignalingState.stable)
    (h2 : s.signalingConnected = true) :
    handleOffer s =
      { pcGen := s.pcGen + 1
        signalingState := SignalingState.stable
        remoteDescriptionSet := true
        pendingIceCandidates := []
        applied := s.applied
        offersSent := s.offersSent
        answersSent := s.answersSent + 1
        signalingConnected := true } := by
  simp [handleOffer, processPendingIceCandidates, h1, h2]

/-- Witness for `offer_midnegotiation_full_reset` at the concrete
mid-negotiation state `exMidNego`: the instance is replaced, the two
buffered candidates are discarded, and one answer is published. -/
theorem offer_midnegotiation_full_reset_witness :
    handleOffer exMidNego =
      { pcGen := 4
        signalingState := SignalingState.stable
        remoteDescriptionSet := true
        pendingIceCandidates := []
        applied := [1]
        offersSent := 2
        answersSent := 1
        signalingConnected := true } := by
  rw [offer_midnegotiation_full_reset exMidNego (by decide) rfl]
  decide

/-- C9: an answer received while the peer connection is not in
`'have-local-offer'` is ignored: the state — remote-description flag,
candidate buffer, connection instance, published-envelope counters — is
entirely unchanged. -/
theorem answer_ignored_without_local_offer (s : NegoState)
    (h : s.signalingState ≠ SignalingState.haveLocalOffer) :
    handleAnswer s = s := by
  simp [handleAnswer, h]

/-- Witness for `answer_ignored_without_local_offer`: a stray answer in the
post-`initialize` receiver state (`'stable'`) is a no-op. -/
theorem answer_ignored_without_local_offer_witness :
    handleAnswer negoInit = negoInit :=
  answer_ignored_without_local_offer negoInit (by decide)

/-- C4: while the session is active, `handleDisconnection` schedules a new
attempt exactly while the counter is below the maximum of 5, the scheduled
attempt re-uses the previously elected role (`isInitiator` unchanged, no
re-election); once the counter is exhausted it reports `'closed'`, schedules
nothing and throws nothing (the function is total); and a data-channel open
resets the counter to 0. -/
theorem reconnection_bounded_retry (s : ReconnState)
    (h : s.isSessionActive = true) :
    ((handleDisconnection s).2.1.isSome
        ↔ s.reconnectAttempts < maxReconnectAttempts) ∧
    (s.reconnectAttempts < maxReconnectAttempts →
      (handleDisconnection s).2.1
          = some (if s.isInitiator then Role.initiator else Role.receiver) ∧
      (handleDisconnection s).1.isInitiator = s.isInitiator ∧
      (handleDisconnection s).1.reconnectAttempts = s.reconnectAttempts + 1 ∧
      (handleDisconnection s).2.2 = none) ∧
    (maxReconnectAttempts ≤ s.reconnectAttempts →
      (handleDisconnection s).2.2 = some ChannelStatus.closed ∧
      (handleDisconnection s).2.1 = none) ∧
    ((onDataChannelOpen s).1.reconnectAttempts = 0 ∧
      (onDataChannelOpen s).2 = ChannelStatus.opened) := by
  by_cases hlt : s.reconnectAttempts < maxReconnectAttempts <;>
    simp [handleDisconnection, onDataChannelOpen, h, hlt]

/-- Witness for `reconnection_bounded_retry`: two attempts in, the next
disconnection schedules a third with the stored initiator role; at five
attempts a disconnection reports `'closed'` with nothing scheduled; a
data-channel open resets the exhausted counter. -/
theorem reconnection_bounded_retry_witness :
    (handleDisconnection exRetrying).2.1
        = some (if exRetrying.isInitiator then Role.initiator
            else Role.receiver) ∧
    (handleDisconnection exExhausted).2.2 = some ChannelStatus.closed ∧
    (onDataChannelOpen exExhausted).1.reconnectAttempts = 0 :=
  ⟨((reconnection_bounded_retry exRetrying rfl).2.1 (by decide)).1,
    ((reconnection_bounded_retry exExhausted rfl).2.2.1 (by decide)).1,
    (reconnection_bounded_retry exExhausted rfl).2.2.2.1⟩

/-- C5 counterexample: the end-session branch of `handleSignalingMessage`
has no `isSessionActive` guard, so receiving a peer's `end-session` envelope
while the session is already inactive is NOT a no-op: the handler repeats
the room-scoped cleanup and invokes `onSessionEnded(true)` again. -/
theorem end_session_inactive_not_noop :
    deliversToCallback "alice"
        { type := MsgType.endSession, senderId := "bob" } = true ∧
    (handleEndSession { isSessionActive := false, roomId := some "r1" }).2
        = [Effect.clearMessages "r1", Effect.clearRoomParticipants "r1",
            Effect.clearSession, Effect.onSessionEnded true,
            Effect.cleanupConnections] ∧
    (handleEndSession { isSessionActive := false, roomId := some "r1" }).2
        ≠ [] := by
  refine ⟨by decide, rfl, by decide⟩

/-- C5 amended: every `end-session` envelope from a sender other than the
local participant is forwarded to the handler, which clears the persisted
messages and membership for the current room, clears the session record and
reports session end with ended-by-peer `true` — and it does so regardless of
whether the session is still active: when the session is already inactive
the cleanup and the report are repeated rather than skipped. -/
theorem end_session_cleanup_by_peer (userId : String) (m : Envelope)
    (s : SessionState) (r : String)
    (h1 : m.type = MsgType.endSession) (h2 : m.senderId ≠ userId)
    (h3 : s.roomId = some r) :
    deliversToCallback userId m = true ∧
    (handleEndSession s).1.isSessionActive = false ∧
    (handleEndSession s).2
        = [Effect.clearMessages r, Effect.clearRoomParticipants r,
            Effect.clearSession, Effect.onSessionEnded true,
            Effect.cleanupConnections] := by
  refine ⟨?_, rfl, ?_⟩
  · simp [deliversToCallback, h1, h2]
  · simp [handleEndSession, h3]

/-- Witness for `end_session_cleanup_by_peer` with local participant
`"alice"`, peer sender `"bob"`, active session in room `"r1"`. -/
theorem end_session_cleanup_by_peer_witness :
    deliversToCallback "alice"
        { type := MsgType.endSession, senderId := "bob" } = true ∧
    (handleEndSession { isSessionActive := true, roomId := some "r1" }).2
        = [Effect.clearMessages "r1", Effect.clearRoomParticipants "r1",
            Effect.clearSession, Effect.onSessionEnded true,
            Effect.cleanupConnections] :=
  ⟨(end_session_cleanup_by_peer "alice"
      { type := MsgType.endSession, senderId := "bob" }
      { isSessionActive := true, roomId := some "r1" } "r1"
      rfl (by decide) rfl).1,
    (end_session_cleanup_by_peer "alice"
      { type := MsgType.endSession, senderId := "bob" }
      { isSessionActive := true, roomId := some "r1" } "r1"
      rfl (by decide) rfl).2.2⟩

/-- C6 counterexample: a `room-full` envelope whose `senderId` equals the
local participant IS forwarded to the registered callback — the `room-full`
branch of the subscription handler has no self-sender filter. -/
theorem room_full_from_self_delivered :
    deliversToCallback "alice"
        { type := MsgType.roomFull, senderId := "alice" } = true := by
  decide

/-- C6 amended: an envelope whose `senderId` equals the local participant is
forwarded to the registered callback exactly when its type is `room-full`;
self-envelopes of every other type are never delivered back. -/
theorem self_envelopes_filtered_except_room_full (userId : String)
    (m : Envelope) (h : m.senderId = userId) :
    (deliversToCallback userId m = true ↔ m.type = MsgType.roomFull) := by
  cases m with
  | mk t sid =>
    have hs : sid = userId := h
    cases t <;> simp [deliversToCallback, hs]

/-- Witness for `self_envelopes_filtered_except_room_full`: a self-sent
offer envelope is not delivered back. -/
theorem self_envelopes_filtered_except_room_full_witness :
    (deliversToCallback "alice"
        { type := MsgType.offer, senderId := "alice" } = true
      ↔ (Envelope.mk MsgType.offer "alice").type = MsgType.roomFull) :=
  self_envelopes_filtered_except_room_full "alice"
    { type := MsgType.offer, senderId := "alice" } rfl

/-- C7 counterexample: when `updateRoomParticipants` yields count 3, the
connect flow broadcasts `room-full` and resolves, and the caller proceeds to
negotiation setup regardless — in particular the third participant still
publishes its `initiator-selection` token. -/
theorem third_participant_still_negotiates :
    (connectFlow 3).roomFullSent = true ∧
    (connectFlow 3).resolved = true ∧
    InitStep.sendInitiatorSelection ∈ initializeAfterConnect (connectFlow 3)
    := by decide

/-- C7 amended: whenever recording a join yields a count greater than 2, the
connect flow broadcasts a `room-full` envelope and skips only the keep-alive
presence signaling, while still completing its relay connection (subscribed,
promise resolved) so the RoomFull notice can be received; however the
over-capacity participant's caller is not blocked: it proceeds to
negotiation setup — receiver peer connection, handler registration, election
token publication, fallback timer — and is evicted only by the UI reacting
to the RoomFull notice. -/
theorem room_full_on_overcapacity_join (n : Nat) (h : n > 2) :
    connectFlow n =
      { subscribed := true
        resolved := true
        roomFullSent := true
        keepAliveStarted := false } ∧
    initializeAfterConnect (connectFlow n) =
      [InitStep.createPeerConnectionAsReceiver,
        InitStep.registerSignalHandler,
        InitStep.sendInitiatorSelection,
        InitStep.armFallbackTimer] := by
  constructor
  · simp [connectFlow, h]
  · simp [connectFlow, initializeAfterConnect, h]

/-- Witness for `room_full_on_overcapacity_join` at count 3. -/
theorem room_full_on_overcapacity_join_witness :
    connectFlow 3 =
      { subscribed := true
        resolved := true
        roomFullSent := true
        keepAliveStarted := false } ∧
    initializeAfterConnect (connectFlow 3) =
      [InitStep.createPeerConnectionAsReceiver,
        InitStep.registerSignalHandler,
        InitStep.sendInitiatorSelection,
        InitStep.armFallbackTimer] :=
  room_full_on_overcapacity_join 3 (by decide)

/-- C10: calling `sendMessage` while the data channel is absent or its
`readyState` is not `'open'` is a complete no-op: nothing is sent on the
channel, the stored-messages list (and hence persisted storage) is
unchanged, `onMessageReceived` is not invoked, and no error is thrown (the
function is total and returns normally). -/
theorem send_message_noop_when_channel_not_open (s : ChatServiceState)
    (message : String) (h : s.dataChannel ≠ some ChannelReadyState.opened) :
    sendMessage s message = (s, []) := by
  cases hdc : s.dataChannel with
  | none => simp [sendMessage, hdc]
  | some rs =>
    have hne : rs ≠ ChannelReadyState.opened := by
      intro he
      exact h (by rw [hdc, he])
    simp [sendMessage, hdc, hne]

/-- Witness for `send_message_noop_when_channel_not_open`: sending with no
data channel present changes nothing and emits no effect. -/
theorem send_message_noop_when_channel_not_open_witness :
    sendMessage exNoChannel "hi" = (exNoChannel, []) :=
  send_message_noop_when_channel_not_open exNoChannel "hi" (by decide)

end P2PChat
